import Mathlib

/-!
Shallow embedding of the comparison engine of `proto-breaking-change-detector`:
`src/comparator/field_comparator.py` and `src/comparator/enum_value_comparator.py`,
together with the data-model contract of the descriptor-wrapper layer and the
resource database that those comparators consume.

Python faults (AttributeError on a `None` dereference or on a missing method,
TypeError raised explicitly or by `str.replace` on a `None` argument) are
modelled explicitly: each operation returns the list of findings appended to
the finding container up to the point of the fault, paired with an optional
fault value.
-/

/-- Severity vocabulary of a finding (`src/findings/utils.py`, consumed by the
comparators; the spec fixes it as MAJOR, MINOR, PATCH). -/
inductive ChangeType where
  | MAJOR
  | MINOR
  | PATCH
deriving DecidableEq

/-- The finding categories the field and enum-value comparators emit. -/
inductive FindingCategory where
  | FIELD_ADDITION
  | FIELD_REMOVAL
  | FIELD_NAME_CHANGE
  | FIELD_REPEATED_CHANGE
  | FIELD_BEHAVIOR_CHANGE
  | FIELD_TYPE_CHANGE
  | FIELD_ONEOF_REMOVAL
  | FIELD_ONEOF_ADDITION
  | FIELD_PROTO3_OPTIONAL_CHANGE
  | RESOURCE_REFERENCE_ADDITION
  | RESOURCE_REFERENCE_REMOVAL
  | RESOURCE_REFERENCE_CHANGE
  | ENUM_VALUE_ADDITION
  | ENUM_VALUE_REMOVAL
  | ENUM_VALUE_NAME_CHANGE
deriving DecidableEq

/-- One record appended to the finding container by `addFinding`. -/
structure Finding where
  category : FindingCategory
  proto_file_name : String
  source_code_line : Nat
  message : String
  change_type : ChangeType
deriving DecidableEq

/-- A Python runtime fault observable from the comparator code: an
`AttributeError` (attribute access on `None` or a missing method) or a
`TypeError` (raised explicitly, or by `str.replace` on a `None` argument). -/
inductive PyError where
  | typeError (msg : String)
  | attributeError (msg : String)
deriving DecidableEq

/-- A value paired with the source line it was read from; mirrors the
`WithLocation` wrapper the descriptor layer puts around field attributes. -/
structure WithLoc (α : Type) where
  value : α
  source_code_line : Nat
deriving DecidableEq

/-- A `google.api.resource_reference` annotation: proto strings, empty when the
corresponding sub-field is unset (exactly one of the two is expected to be set
in well-formed input). -/
structure ResourceRef where
  type : String
  child_type : String
deriving DecidableEq

/-- A resource definition as stored in the resource database or attached as a
message-level resource; only its `type` is ever read by the comparators. -/
structure ResourceDef where
  type : String
deriving DecidableEq

/-- The resource database contract consumed by the field comparator. Modelled
from the spec: the database class is not under src/, and the spec declares
exactly two operations, `getResourceByType(type)` and
`getParentResourcesByChildType(childType)`, each returning a set of resource
definitions (sets modelled as lists; only emptiness and membership of a type
are ever observed). -/
structure ResourceDatabase where
  get_resource_by_type : String → List (WithLoc ResourceDef)
  get_parent_resources_by_child_type : String → List (WithLoc ResourceDef)

/-- The normalized view of one field at one schema revision, with the
attributes `FieldComparator` reads (the wrapper layer itself is not under
src/; the attribute shapes follow the spec data model and the accesses made by
the comparator: `.value`/`.source_code_line` wrappers on repeated, required,
proto_type and type_name, a plain membership flag for oneof, plain strings for
the map entry key/value — only read under `is_map_type` guards — and optional
api_version, resource_reference, message_resource and resource_database). -/
structure FieldView where
  name : String
  proto_file_name : String
  source_code_line : Nat
  repeated : WithLoc Bool
  required : WithLoc Bool
  proto_type : WithLoc String
  type_name : Option (WithLoc String)
  oneof : Bool
  proto3_optional : Bool
  is_map_type : Bool
  map_entry_key : String
  map_entry_value : String
  api_version : Option String
  resource_reference : Option (WithLoc ResourceRef)
  message_resource : Option (WithLoc ResourceDef)
  resource_database : Option ResourceDatabase

/-- The normalized view of one enum value: name and source location only. -/
structure EnumValue where
  name : String
  proto_file_name : String
  source_code_line : Nat
deriving DecidableEq

/-- Python truthiness of an optional string attribute: `None` and the empty
string are falsy. -/
def pyTruthyStr : Option String → Bool
  | none => false
  | some s => !s.isEmpty

/-- Python `a or b` on two strings: the first operand when it is truthy
(non-empty), otherwise the second. -/
def pyOr (a b : String) : String :=
  if a.isEmpty then b else a

/-- One pass of Python `str.replace` over a character list: replaces each
non-overlapping occurrence of `pat` (non-empty at every call site, guarded by
truthiness of the original api_version) by `rep`, left to right. `fuel` bounds
the recursion by the input length; each step consumes at least one character,
so the fuel never runs out when it starts at the input length. -/
def pyReplaceAux (fuel : Nat) (pat rep s : List Char) : List Char :=
  match fuel, s with
  | 0, s => s
  | _ + 1, [] => []
  | f + 1, c :: rest =>
    if pat.isPrefixOf (c :: rest) then
      rep ++ pyReplaceAux f pat rep ((c :: rest).drop pat.length)
    else
      c :: pyReplaceAux f pat rep rest

/-- Python `s.replace(pat, rep)` for a non-empty pattern. -/
def pyReplace (s pat rep : String) : String :=
  ⟨pyReplaceAux s.data.length pat.data rep.data s.data⟩

/-- The discriminant flag `field.child_type` read by the comparator. Modelled
from the spec: the wrapper layer is not under src/; per the spec's resolver
description a reference uses the `childType` discriminant exactly when its
`child_type` string is set, and a field without a resource reference is not a
child-type reference. -/
def FieldView.childType (f : FieldView) : Bool :=
  match f.resource_reference with
  | some r => !r.value.child_type.isEmpty
  | none => false

namespace FieldComparator

/-- Mirrors `_transformed_type_name` (field_comparator.py lines 303-314):
`type_name.replace(api_version_original, api_version_update)` when the
original api_version is truthy, else `None`. Passing the updated side's
api_version into `str.replace` while it is `None` is a Python `TypeError`. -/
def transformedTypeName (o u : FieldView) (t : String) : Except PyError (Option String) :=
  match o.api_version with
  | none => .ok none
  | some vo =>
    if vo.isEmpty then
      .ok none
    else
      match u.api_version with
      | none => .error (.typeError "replace() argument 2 must be str, not None")
      | some vu => .ok (some (pyReplace t vo vu))

/-- The version-tolerant identity used on map key/value types
(field_comparator.py lines 150-157): `a == b or _transformed_type_name(a) == b`,
with Python short-circuiting (the transform is not evaluated when the raw
strings already agree; `None == b` is `False`). -/
def identicalTypeCheck (o u : FieldView) (a b : String) : Except PyError Bool :=
  if a == b then
    .ok true
  else
    match transformedTypeName o u a with
    | .error e => .error e
    | .ok t => .ok (t == some b)

/-- The map-type sub-branches of step 5 (field_comparator.py lines 125-165),
reached when both sides carry the same `type_name` value. -/
def mapTypeFindings (o u : FieldView) (tnO tnU : WithLoc String) : Except PyError (List Finding) :=
  if o.is_map_type && !u.is_map_type then
    .ok [⟨.FIELD_TYPE_CHANGE, u.proto_file_name, tnU.source_code_line,
          s!"Type of an existing field `{o.name}` is changed from a map to `{tnU.value}`.",
          .MAJOR⟩]
  else if !o.is_map_type && u.is_map_type then
    .ok [⟨.FIELD_TYPE_CHANGE, u.proto_file_name, tnU.source_code_line,
          s!"Type of an existing field `{o.name}` is changed from `{tnO.value}` to a map.",
          .MAJOR⟩]
  else if o.is_map_type && u.is_map_type then
    match identicalTypeCheck o u o.map_entry_key u.map_entry_key with
    | .error e => .error e
    | .ok identical_key_type =>
      match identicalTypeCheck o u o.map_entry_value u.map_entry_value with
      | .error e => .error e
      | .ok identical_value_type =>
        if !(identical_key_type && identical_value_type) then
          .ok [⟨.FIELD_TYPE_CHANGE, u.proto_file_name, tnU.source_code_line,
                s!"Type of an existing field `{o.name}` is changed from `map<{o.map_entry_key}, {o.map_entry_value}>` to `map<{u.map_entry_key}, {u.map_entry_value}>`.",
                .MAJOR⟩]
        else
          .ok []
  else
    .ok []

/-- Step 5 of `compare` (field_comparator.py lines 92-165): the mutually
exclusive type branches. Evaluating the first `elif` condition reads
`field_update.type_name.value` without a presence check (line 105), which
faults when the original side has a type_name and the updated side does not. -/
def typeFindings (o u : FieldView) : Except PyError (List Finding) :=
  if o.proto_type.value != u.proto_type.value then
    .ok [⟨.FIELD_TYPE_CHANGE, u.proto_file_name, u.proto_type.source_code_line,
          s!"Type of an existing field `{o.name}` is changed from `{o.proto_type.value}` to `{u.proto_type.value}`.",
          .MAJOR⟩]
  else
    match o.type_name with
    | none => .ok []
    | some tnO =>
      match u.type_name with
      | none => .error (.attributeError "NoneType object has no attribute value")
      | some tnU =>
        if tnO.value != tnU.value then
          match transformedTypeName o u tnO.value with
          | .error e => .error e
          | .ok transformed_type_name =>
            if !(pyTruthyStr transformed_type_name) || transformed_type_name != some tnU.value then
              .ok [⟨.FIELD_TYPE_CHANGE, u.proto_file_name, tnU.source_code_line,
                    s!"Type of an existing field `{o.name}` is changed from `{tnO.value}` to `{tnU.value}`.",
                    .MAJOR⟩]
            else
              .ok []
        else
          mapTypeFindings o u tnO tnU

/-- Steps 6 and 7 of `compare` (field_comparator.py lines 167-209): oneof
membership and proto3-optional state. -/
def oneofFindings (o u : FieldView) : List Finding :=
  if o.oneof != u.oneof then
    if o.oneof then
      [⟨.FIELD_ONEOF_REMOVAL, u.proto_file_name, u.source_code_line,
        s!"An existing field `{o.name}` is moved out of One-of.", .MAJOR⟩]
    else
      [⟨.FIELD_ONEOF_ADDITION, u.proto_file_name, u.source_code_line,
        s!"An existing field `{o.name}` is moved into One-of.", .MAJOR⟩]
  else if o.oneof && (o.proto3_optional != u.proto3_optional) then
    (if o.proto3_optional then
      [⟨.FIELD_PROTO3_OPTIONAL_CHANGE, u.proto_file_name, u.source_code_line,
        s!"Proto3 optional state of an existing field `{o.name}` is changed to required.",
        .MAJOR⟩]
     else []) ++
    (if u.proto3_optional then
      [⟨.FIELD_PROTO3_OPTIONAL_CHANGE, u.proto_file_name, u.source_code_line,
        s!"An existing field `{o.name}` is changed to proto3 optional.", .MINOR⟩]
     else [])
  else
    []

/-- Mirrors `_resource_in_database` (field_comparator.py lines 316-326): a
missing database is a negative lookup; otherwise the lookup dispatches on the
updated side's discriminant. The child-type dispatch invokes
`get_parent_resource_by_child_type` (singular), a name the two-operation
database contract declared by the spec does not define, so that call faults. -/
def resourceInDatabase (u : FieldView) (resource_ref : WithLoc ResourceRef) : Except PyError Bool :=
  match u.resource_database with
  | none => .ok false
  | some rb_update =>
    if u.childType then
      .error (.attributeError "ResourceDatabase object has no attribute get_parent_resource_by_child_type")
    else
      .ok !(rb_update.get_resource_by_type resource_ref.value.type).isEmpty

/-- Mirrors `_resource_ref_in_local` (field_comparator.py lines 328-350): is
the removed reference's type still enforced by a message-level resource on the
updated side. The child-type branch dereferences the updated side's database
without a presence check (lines 339-341). -/
def resourceRefInLocal (o u : FieldView) (resource_ref : ResourceRef) : Except PyError Bool :=
  match u.message_resource with
  | none => .ok false
  | some mr_update =>
    let checked_type := pyOr resource_ref.type resource_ref.child_type
    if checked_type.isEmpty then
      .error (.typeError "In a resource_reference annotation, either `type` or `child_type` field should be defined")
    else if o.childType then
      match u.resource_database with
      | none => .error (.attributeError "NoneType object has no attribute get_parent_resources_by_child_type")
      | some rb_update =>
        let parent_resources := rb_update.get_parent_resources_by_child_type resource_ref.child_type
        if !(parent_resources.any fun resource => mr_update.value.type == resource.value.type) then
          .ok false
        else
          .ok true
    else if mr_update.value.type != resource_ref.type then
      .ok false
    else
      .ok true

/-- Mirrors `_is_parent_type` (field_comparator.py lines 352-373): queries the
parent resources of `child_type` in the database of the side that owns the
child-type reference (the original side when `original_is_child`, else the
updated side), dereferenced without a presence check. -/
def isParentType (o u : FieldView) (child_type parent_type : String)
    (original_is_child : Bool) (source_code_line : Nat) : Except PyError (List Finding) :=
  let rb := if original_is_child then o.resource_database else u.resource_database
  match rb with
  | none => .error (.attributeError "NoneType object has no attribute get_parent_resources_by_child_type")
  | some rb_side =>
    let parent_resources := rb_side.get_parent_resources_by_child_type child_type
    if !(parent_resources.any fun parent => parent.value.type == parent_type) then
      .ok [⟨.RESOURCE_REFERENCE_CHANGE, u.proto_file_name, source_code_line,
            s!"The child_type `{child_type}` and type `{parent_type}` of resource reference option in field `{o.name}` cannot be resolved to the identical resource.",
            .MAJOR⟩]
    else
      .ok []

/-- Mirrors `_compare_resource_reference` (field_comparator.py lines 214-301),
step 8 of `compare`: addition, removal, same-discriminant change and flipped
discriminant, recording the findings appended before any fault. -/
def compareResourceReference (o u : FieldView) : List Finding × Option PyError :=
  match o.resource_reference, u.resource_reference with
  | none, none => ([], none)
  | none, some resource_ref_update =>
    match resourceInDatabase u resource_ref_update with
    | .error e => ([], some e)
    | .ok resource_in_database =>
      if !resource_in_database then
        ([⟨.RESOURCE_REFERENCE_ADDITION, u.proto_file_name, resource_ref_update.source_code_line,
           s!"A resource reference option is added to the field `{o.name}`, but it is not defined anywhere",
           .MAJOR⟩], none)
      else
        ([⟨.RESOURCE_REFERENCE_ADDITION, u.proto_file_name, resource_ref_update.source_code_line,
           s!"A resource reference option is added to the field `{o.name}`.", .MINOR⟩], none)
  | some resource_ref_original, none =>
    match resourceRefInLocal o u resource_ref_original.value with
    | .error e => ([], some e)
    | .ok in_local =>
      if !in_local then
        ([⟨.RESOURCE_REFERENCE_REMOVAL, o.proto_file_name, resource_ref_original.source_code_line,
           s!"A resource reference option of the field `{o.name}` is removed.", .MAJOR⟩], none)
      else
        ([⟨.RESOURCE_REFERENCE_REMOVAL, o.proto_file_name, resource_ref_original.source_code_line,
           s!"A resource reference option of the field `{o.name}` is removed, but added back to the message options.",
           .MINOR⟩], none)
  | some resource_ref_original, some resource_ref_update =>
    if o.childType == u.childType then
      let original_type := pyOr resource_ref_original.value.type resource_ref_original.value.child_type
      let update_type := pyOr resource_ref_update.value.type resource_ref_update.value.child_type
      if original_type != update_type then
        ([⟨.RESOURCE_REFERENCE_CHANGE, u.proto_file_name, resource_ref_update.source_code_line,
           s!"The type of resource reference option of the field `{o.name}` is changed from `{original_type}` to `{update_type}`.",
           .MAJOR⟩], none)
      else
        ([], none)
    else
      let first :=
        if o.childType then
          isParentType o u resource_ref_original.value.child_type resource_ref_update.value.type
            true resource_ref_update.source_code_line
        else
          .ok []
      match first with
      | .error e => ([], some e)
      | .ok fs1 =>
        if u.childType then
          match isParentType o u resource_ref_update.value.child_type resource_ref_original.value.type
              false resource_ref_update.source_code_line with
          | .error e => (fs1, some e)
          | .ok fs2 => (fs1 ++ fs2, none)
        else
          (fs1, none)

/-- Steps 3 to 8 of `compare` for two present fields (field_comparator.py
lines 61-212): the name check returns early; the repeated, required, type,
oneof and resource-reference checks run in order, each appending its findings,
and a fault in the type step or the resource step stops the run with the
findings appended so far. -/
def compareFields (o u : FieldView) : List Finding × Option PyError :=
  if o.name != u.name then
    ([⟨.FIELD_NAME_CHANGE, u.proto_file_name, u.source_code_line,
       s!"Name of an existing field is changed from `{o.name}` to `{u.name}`.", .MAJOR⟩], none)
  else
    let s4 :=
      (if o.repeated.value != u.repeated.value then
        [⟨.FIELD_REPEATED_CHANGE, u.proto_file_name, u.repeated.source_code_line,
          s!"Repeated state of an existing field `{o.name}` is changed.", .MAJOR⟩]
       else []) ++
      (if !o.required.value && u.required.value then
        [⟨.FIELD_BEHAVIOR_CHANGE, u.proto_file_name, u.required.source_code_line,
          s!"Field behavior of an existing field `{o.name}` is changed.", .MAJOR⟩]
       else [])
    match typeFindings o u with
    | .error e => (s4, some e)
    | .ok s5 =>
      let s67 := oneofFindings o u
      let s8 := compareResourceReference o u
      (s4 ++ s5 ++ s67 ++ s8.1, s8.2)

/-- `FieldComparator.compare` (field_comparator.py lines 36-212). An absent
original yields the FIELD_ADDITION finding and returns; an absent update
yields the FIELD_REMOVAL finding and returns; both absent — excluded by the
data-model contract — dereferences the missing updated side before any
finding is appended. -/
def compare : Option FieldView → Option FieldView → List Finding × Option PyError
  | none, none => ([], some (.attributeError "NoneType object has no attribute proto_file_name"))
  | none, some u =>
    ([⟨.FIELD_ADDITION, u.proto_file_name, u.source_code_line,
       s!"A new field `{u.name}` is added.", .MINOR⟩], none)
  | some o, none =>
    ([⟨.FIELD_REMOVAL, o.proto_file_name, o.source_code_line,
       s!"An existing field `{o.name}` is removed.", .MAJOR⟩], none)
  | some o, some u => compareFields o u

/-- A comparison run against an explicit finding container: the run appends
its findings to the container it is given (`FindingContainer.addFinding`). -/
def run (o u : Option FieldView) (container : List Finding) : List Finding × Option PyError :=
  (container ++ (compare o u).1, (compare o u).2)

end FieldComparator

namespace EnumValueComparator

/-- `EnumValueComparator.compare` (enum_value_comparator.py lines 31-58):
addition (MINOR), removal (MAJOR), name change (MAJOR); both absent — excluded
by the data-model contract — dereferences the missing updated side. -/
def compare : Option EnumValue → Option EnumValue → List Finding × Option PyError
  | none, none => ([], some (.attributeError "NoneType object has no attribute proto_file_name"))
  | none, some u =>
    ([⟨.ENUM_VALUE_ADDITION, u.proto_file_name, u.source_code_line,
       s!"A new EnumValue `{u.name}` is added.", .MINOR⟩], none)
  | some o, none =>
    ([⟨.ENUM_VALUE_REMOVAL, o.proto_file_name, o.source_code_line,
       s!"An existing EnumValue `{o.name}` is removed.", .MAJOR⟩], none)
  | some o, some u =>
    if o.name != u.name then
      ([⟨.ENUM_VALUE_NAME_CHANGE, u.proto_file_name, u.source_code_line,
         s!"Name of the EnumValue is changed from `{o.name}` to `{u.name}`.", .MAJOR⟩], none)
    else
      ([], none)

end EnumValueComparator

/-- The findings of one category within a container, in order. -/
def findingsOfCategory (c : FindingCategory) (l : List Finding) : List Finding :=
  l.filter fun f => f.category == c

/-- A neutral concrete field view: enum-typed, no type_name, no annotations,
no database. -/
def baseFieldView : FieldView :=
  ⟨"my_field", "foo.proto", 10, ⟨false, 11⟩, ⟨false, 12⟩, ⟨"TYPE_ENUM", 13⟩,
   none, false, false, false, "", "", none, none, none, none⟩

/-- A concrete field view carrying an enum type name and an api_version. -/
def typedFieldView (tn : String) (v : Option String) : FieldView :=
  ⟨"my_field", "foo.proto", 10, ⟨false, 11⟩, ⟨false, 12⟩, ⟨"TYPE_ENUM", 13⟩,
   some ⟨tn, 14⟩, false, false, false, "", "", v, none, none, none⟩

/-- A finding's severity is MAJOR or MINOR (never PATCH). -/
def nonPatch (f : Finding) : Bool :=
  f.change_type == ChangeType.MAJOR || f.change_type == ChangeType.MINOR

/-- The finding's location was read from the view `g`: the file name is `g`'s
and the line is one of the lines the comparator reads off `g`. -/
def locFrom (g : FieldView) (f : Finding) : Bool :=
  f.proto_file_name == g.proto_file_name &&
  (f.source_code_line == g.source_code_line ||
   f.source_code_line == g.repeated.source_code_line ||
   f.source_code_line == g.required.source_code_line ||
   f.source_code_line == g.proto_type.source_code_line ||
   (match g.type_name with
    | some t => f.source_code_line == t.source_code_line
    | none => false) ||
   (match g.resource_reference with
    | some r => f.source_code_line == r.source_code_line
    | none => false))

/-- Combined per-finding invariant for a comparison of two present fields:
the severity is MAJOR or MINOR, and the location comes from the updated view
except for resource-reference removals, which take it from the original. -/
def findingOk (o u : FieldView) (f : Finding) : Bool :=
  nonPatch f &&
  (if f.category == FindingCategory.RESOURCE_REFERENCE_REMOVAL then locFrom o f else locFrom u f)

/-- Shape of the finding `_is_parent_type` can append: a MAJOR
RESOURCE_REFERENCE_CHANGE at the updated side's file and the given line. -/
def rrcShape (u : FieldView) (line : Nat) (f : Finding) : Bool :=
  f.category == FindingCategory.RESOURCE_REFERENCE_CHANGE &&
  f.change_type == ChangeType.MAJOR &&
  f.proto_file_name == u.proto_file_name &&
  f.source_code_line == line

/-- Splits a character list at `.` separators, accumulating the current
segment in reverse; the segments of a qualified proto type name. -/
def splitSegmentsAux : List Char → List Char → List (List Char)
  | [], acc => [acc.reverse]
  | c :: rest, acc =>
    if c = '.' then acc.reverse :: splitSegmentsAux rest []
    else splitSegmentsAux rest (c :: acc)

/-- Modelled from the spec, for comparison with the implementation: a
segment-exact version substitution replaces exactly those dot-delimited
segments of the original type name that equal the original apiVersion by the
updated apiVersion. -/
def segmentSubstitute (t vo vu : String) : String :=
  ⟨List.intercalate ['.'] ((splitSegmentsAux t.data []).map fun seg =>
    if seg = vo.data then vu.data else seg)⟩

/-- A field view carrying a resource reference annotation and, optionally, a
message-level resource and a resource database. -/
def mrFieldView (rr : Option (WithLoc ResourceRef)) (mr : Option (WithLoc ResourceDef))
    (db : Option ResourceDatabase) : FieldView :=
  ⟨"my_field", "foo.proto", 10, ⟨false, 11⟩, ⟨false, 12⟩, ⟨"TYPE_STRING", 13⟩,
   none, false, false, false, "", "", none, rr, mr, db⟩

/-- A field view with a resource reference of the given type / child_type. -/
def refFieldView (t ct : String) (db : Option ResourceDatabase) : FieldView :=
  mrFieldView (some ⟨⟨t, ct⟩, 15⟩) none db

/-- A field view with no annotations at all. -/
def plainFieldView : FieldView :=
  mrFieldView none none none

/-- A concrete resource database with nothing registered. -/
def emptyResourceDatabase : ResourceDatabase :=
  ⟨fun _ => [], fun _ => []⟩

/-- A concrete resource database where `example.com/Project` is registered as
the parent resource of child type `example.com/Location`. -/
def projectParentDatabase : ResourceDatabase :=
  ⟨fun _ => [],
   fun ct => if ct = "example.com/Location" then [⟨⟨"example.com/Project"⟩, 30⟩] else []⟩

/-- A concrete original-side field view in file `original.proto` whose
resource reference annotation is removed in the update. -/
def removedRefOriginal : FieldView :=
  ⟨"my_field", "original.proto", 3, ⟨false, 11⟩, ⟨false, 12⟩, ⟨"TYPE_STRING", 13⟩,
   none, false, false, false, "", "", none, some ⟨⟨"example.com/Example", ""⟩, 4⟩, none, none⟩

/-- The matching updated-side field view in file `updated.proto`, with no
resource reference and no message resource. -/
def removedRefUpdated : FieldView :=
  ⟨"my_field", "updated.proto", 7, ⟨false, 11⟩, ⟨false, 12⟩, ⟨"TYPE_STRING", 13⟩,
   none, false, false, false, "", "", none, none, none, none⟩

lemma typeFindings_all_ok (o u : FieldView) (l : List Finding)
    (h : FieldComparator.typeFindings o u = .ok l) :
    l.all (findingOk o u) = true := by
  unfold FieldComparator.typeFindings at h
  split at h
  · cases h
    simp [findingOk, nonPatch, locFrom]
  · split at h
    · cases h
      simp
    · rename_i tnO heqO
      split at h
      · simp at h
      · rename_i tnU heqU
        split at h
        · split at h
          · simp at h
          · split at h
            · cases h
              simp [findingOk, nonPatch, locFrom, heqU]
            · cases h
              simp
        · unfold FieldComparator.mapTypeFindings at h
          split at h
          · cases h
            simp [findingOk, nonPatch, locFrom, heqU]
          · split at h
            · cases h
              simp [findingOk, nonPatch, locFrom, heqU]
            · split at h
              · split at h
                · simp at h
                · split at h
                  · simp at h
                  · split at h
                    · cases h
                      simp [findingOk, nonPatch, locFrom, heqU]
                    · cases h
                      simp
              · cases h
                simp

lemma oneofFindings_all_ok (o u : FieldView) :
    (FieldComparator.oneofFindings o u).all (findingOk o u) = true := by
  unfold FieldComparator.oneofFindings
  split
  · split <;> simp [findingOk, nonPatch, locFrom]
  · split
    · simp only [List.all_append, Bool.and_eq_true]
      constructor <;> split <;> simp [findingOk, nonPatch, locFrom]
    · simp

lemma isParentType_all_shape (o u : FieldView) (ct pt : String) (oic : Bool) (line : Nat)
    (l : List Finding) (h : FieldComparator.isParentType o u ct pt oic line = .ok l) :
    l.all (rrcShape u line) = true := by
  simp only [FieldComparator.isParentType] at h
  repeat' split at h
  all_goals (cases h <;> simp [rrcShape])

lemma all_shape_to_findingOk (o u : FieldView) (refU : WithLoc ResourceRef)
    (hu : u.resource_reference = some refU) (l : List Finding)
    (h : l.all (rrcShape u refU.source_code_line) = true) :
    l.all (findingOk o u) = true := by
  refine List.all_eq_true.mpr fun f hf => ?_
  have hh := List.all_eq_true.mp h f hf
  simp only [rrcShape, Bool.and_eq_true, beq_iff_eq] at hh
  obtain ⟨⟨⟨hc, hct⟩, hfile⟩, hline⟩ := hh
  simp [findingOk, nonPatch, locFrom, hc, hct, hfile, hline, hu]

lemma compareResourceReference_all_ok (o u : FieldView) :
    (FieldComparator.compareResourceReference o u).1.all (findingOk o u) = true := by
  simp only [FieldComparator.compareResourceReference]
  split
  · simp
  · rename_i refU hequ
    split
    · simp
    · split <;> simp [findingOk, nonPatch, locFrom, hequ]
  · rename_i refO heqo
    split
    · simp
    · split <;> simp [findingOk, nonPatch, locFrom, refO, heqo]
  · rename_i refO refU heqo hequ
    split
    · split <;> simp [findingOk, nonPatch, locFrom, hequ]
    · split
      · simp
      · rename_i fs1 hfs1
        have h1 : fs1.all (rrcShape u refU.source_code_line) = true := by
          by_cases hch : o.childType = true
          · rw [if_pos hch] at hfs1
            exact isParentType_all_shape o u _ _ _ _ _ hfs1
          · rw [if_neg hch] at hfs1
            cases hfs1
            simp
        split
        · split
          · simpa using all_shape_to_findingOk o u refU hequ fs1 h1
          · rename_i fs2 h2
            have h2s := isParentType_all_shape o u _ _ _ _ _ h2
            simp only [List.all_append, Bool.and_eq_true]
            exact ⟨all_shape_to_findingOk o u refU hequ fs1 h1,
                   all_shape_to_findingOk o u refU hequ fs2 h2s⟩
        · simpa using all_shape_to_findingOk o u refU hequ fs1 h1

lemma compareFields_all_ok (o u : FieldView) :
    (FieldComparator.compareFields o u).1.all (findingOk o u) = true := by
  simp only [FieldComparator.compareFields]
  split
  · simp [findingOk, nonPatch, locFrom]
  · split
    · simp only [List.all_append, Bool.and_eq_true]
      constructor <;> split <;> simp [findingOk, nonPatch, locFrom]
    · rename_i s5 h5
      simp only [List.all_append, Bool.and_eq_true]
      refine ⟨⟨⟨⟨?_, ?_⟩, typeFindings_all_ok o u s5 h5⟩, oneofFindings_all_ok o u⟩,
        compareResourceReference_all_ok o u⟩
      · split <;> simp [findingOk, nonPatch, locFrom]
      · split <;> simp [findingOk, nonPatch, locFrom]

/-- Claim C3: for every present field `F`, comparing an absent original with
`F` yields exactly one finding, FIELD_ADDITION of severity MINOR at `F`'s file
and line, and the comparator returns; comparing `F` with an absent update
yields exactly one finding, FIELD_REMOVAL of severity MAJOR at `F`'s file and
line, and the comparator returns. -/
theorem field_addition_removal_exact (F : FieldView) :
    FieldComparator.compare none (some F) =
      ([⟨.FIELD_ADDITION, F.proto_file_name, F.source_code_line,
         s!"A new field `{F.name}` is added.", .MINOR⟩], none) ∧
    FieldComparator.compare (some F) none =
      ([⟨.FIELD_REMOVAL, F.proto_file_name, F.source_code_line,
         s!"An existing field `{F.name}` is removed.", .MAJOR⟩], none) :=
  ⟨rfl, rfl⟩

/-- Claim C8: on every input, every finding of the field comparator and of the
enum-value comparator has severity MAJOR or MINOR; neither ever emits a
PATCH-severity finding. -/
theorem comparator_severities_never_patch (o u : Option FieldView) (eo eu : Option EnumValue) :
    (FieldComparator.compare o u).1.all nonPatch = true ∧
    (EnumValueComparator.compare eo eu).1.all nonPatch = true := by
  constructor
  · cases o with
    | none =>
      cases u with
      | none => simp [FieldComparator.compare]
      | some u => simp [FieldComparator.compare, nonPatch]
    | some o =>
      cases u with
      | none => simp [FieldComparator.compare, nonPatch]
      | some u =>
        have h := compareFields_all_ok o u
        refine List.all_eq_true.mpr fun f hf => ?_
        have hFin := List.all_eq_true.mp h f (by simpa [FieldComparator.compare] using hf)
        simp only [findingOk, Bool.and_eq_true] at hFin
        exact hFin.1
  · cases eo with
    | none =>
      cases eu with
      | none => simp [EnumValueComparator.compare]
      | some eu => simp [EnumValueComparator.compare, nonPatch]
    | some eo =>
      cases eu with
      | none => simp [EnumValueComparator.compare, nonPatch]
      | some eu =>
        simp only [EnumValueComparator.compare]
        split <;> simp [nonPatch]

/-- Claim C9: the field comparator is deterministic and effect-free apart from
appending: a run only appends to the container it is given (the prior content
is preserved as a prefix), two runs on the same inputs against independent
accumulators append identical ordered finding lists and agree on the fault
outcome, and the field views — plain values in this embedding — cannot be
mutated by a run. -/
theorem compare_deterministic_append_only (o u : Option FieldView) (a b : List Finding) :
    (FieldComparator.run o u a).1.take a.length = a ∧
    (FieldComparator.run o u a).1.drop a.length = (FieldComparator.run o u b).1.drop b.length ∧
    (FieldComparator.run o u a).2 = (FieldComparator.run o u b).2 := by
  refine ⟨?_, ?_, rfl⟩ <;> simp [FieldComparator.run]

/-- Claim C6 (amended): every finding of the field comparator takes its
location from the updated side, with two exceptions that take it from the
original side: pure field removals (the updated side is absent) and
resource-reference removals (the removed annotation exists only on the
original side). -/
theorem finding_locations_follow_updated_side (o u : FieldView) :
    ((FieldComparator.compare (some o) (some u)).1.all fun f =>
        if f.category == FindingCategory.RESOURCE_REFERENCE_REMOVAL then locFrom o f
        else locFrom u f) = true ∧
    ((FieldComparator.compare (some o) none).1.all fun f => locFrom o f) = true ∧
    ((FieldComparator.compare none (some u)).1.all fun f => locFrom u f) = true := by
  refine ⟨?_, ?_, ?_⟩
  · have h := compareFields_all_ok o u
    refine List.all_eq_true.mpr fun f hf => ?_
    have hFin := List.all_eq_true.mp h f (by simpa [FieldComparator.compare] using hf)
    simp only [findingOk, Bool.and_eq_true] at hFin
    exact hFin.2
  · simp [FieldComparator.compare, locFrom]
  · simp [FieldComparator.compare, locFrom]

lemma findingsOfCategory_eq_nil {c : FindingCategory} {l : List Finding} {q : Finding → Bool}
    (hall : l.all q = true) (hne : ∀ f, q f = true → f.category ≠ c) :
    findingsOfCategory c l = [] := by
  simp only [findingsOfCategory]
  refine List.filter_eq_nil_iff.mpr fun f hf => ?_
  have hq := List.all_eq_true.mp hall f hf
  simp [hne f hq]

lemma typeFindings_categories (o u : FieldView) (l : List Finding)
    (h : FieldComparator.typeFindings o u = .ok l) :
    l.all (fun f => f.category == FindingCategory.FIELD_TYPE_CHANGE) = true := by
  unfold FieldComparator.typeFindings at h
  repeat' split at h
  all_goals try (cases h <;> simp)
  all_goals
    (unfold FieldComparator.mapTypeFindings at h
     repeat' split at h
     all_goals (cases h <;> simp))

lemma oneofFindings_categories (o u : FieldView) :
    (FieldComparator.oneofFindings o u).all
      (fun f => f.category == FindingCategory.FIELD_ONEOF_REMOVAL ||
        f.category == FindingCategory.FIELD_ONEOF_ADDITION ||
        f.category == FindingCategory.FIELD_PROTO3_OPTIONAL_CHANGE) = true := by
  unfold FieldComparator.oneofFindings
  split
  · split <;> simp
  · split
    · simp only [List.all_append, Bool.and_eq_true]
      constructor <;> split <;> simp
    · simp

lemma compareResourceReference_categories (o u : FieldView) :
    (FieldComparator.compareResourceReference o u).1.all
      (fun f => f.category == FindingCategory.RESOURCE_REFERENCE_ADDITION ||
        f.category == FindingCategory.RESOURCE_REFERENCE_REMOVAL ||
        f.category == FindingCategory.RESOURCE_REFERENCE_CHANGE) = true := by
  simp only [FieldComparator.compareResourceReference]
  split
  · simp
  · split
    · simp
    · split <;> simp
  · split
    · simp
    · split <;> simp
  · rename_i refO refU heqo hequ
    split
    · split <;> simp
    · split
      · simp
      · rename_i fs1 hfs1
        have h1 : fs1.all (rrcShape u refU.source_code_line) = true := by
          by_cases hch : o.childType = true
          · rw [if_pos hch] at hfs1
            exact isParentType_all_shape o u _ _ _ _ _ hfs1
          · rw [if_neg hch] at hfs1
            cases hfs1
            simp
        have hconv : ∀ l : List Finding, l.all (rrcShape u refU.source_code_line) = true →
            l.all (fun f => f.category == FindingCategory.RESOURCE_REFERENCE_ADDITION ||
              f.category == FindingCategory.RESOURCE_REFERENCE_REMOVAL ||
              f.category == FindingCategory.RESOURCE_REFERENCE_CHANGE) = true := by
          intro l hl
          refine List.all_eq_true.mpr fun f hf => ?_
          have hh := List.all_eq_true.mp hl f hf
          simp only [rrcShape, Bool.and_eq_true, beq_iff_eq] at hh
          simp [hh.1.1.1]
        split
        · split
          · simpa using hconv fs1 h1
          · rename_i fs2 h2
            have h2s := isParentType_all_shape o u _ _ _ _ _ h2
            simp only [List.all_append, Bool.and_eq_true]
            exact ⟨hconv fs1 h1, hconv fs2 h2s⟩
        · simpa using hconv fs1 h1

lemma findingsOfCategory_append (c : FindingCategory) (l1 l2 : List Finding) :
    findingsOfCategory c (l1 ++ l2) = findingsOfCategory c l1 ++ findingsOfCategory c l2 := by
  simp [findingsOfCategory]

lemma typeFindings_eq_version (o u : FieldView) (tnO tnU : WithLoc String) (vo vu : String)
    (hpt : o.proto_type.value = u.proto_type.value)
    (htnO : o.type_name = some tnO) (htnU : u.type_name = some tnU)
    (hdiff : tnO.value ≠ tnU.value) (hU : tnU.value ≠ "")
    (hvo : o.api_version = some vo) (hvoNe : vo ≠ "")
    (hvu : u.api_version = some vu) :
    FieldComparator.typeFindings o u =
      .ok (if pyReplace tnO.value vo vu = tnU.value then []
           else [⟨.FIELD_TYPE_CHANGE, u.proto_file_name, tnU.source_code_line,
                 s!"Type of an existing field `{o.name}` is changed from `{tnO.value}` to `{tnU.value}`.",
                 .MAJOR⟩]) := by
  simp only [FieldComparator.typeFindings, FieldComparator.transformedTypeName,
    hpt, htnO, htnU, hvo, hvu, bne_self_eq_false, Bool.false_eq_true, if_false]
  rw [if_pos (by simp [bne_iff_ne, hdiff])]
  rw [if_neg (by simp [String.isEmpty_iff, hvoNe])]
  by_cases hr : pyReplace tnO.value vo vu = tnU.value
  · simp [pyTruthyStr, hr, String.isEmpty_iff, hU]
  · simp [pyTruthyStr, bne_iff_ne, hr]

lemma typeFindings_eq_no_version (o u : FieldView) (tnO tnU : WithLoc String)
    (hpt : o.proto_type.value = u.proto_type.value)
    (htnO : o.type_name = some tnO) (htnU : u.type_name = some tnU)
    (hdiff : tnO.value ≠ tnU.value)
    (hv : o.api_version = none) :
    FieldComparator.typeFindings o u =
      .ok [⟨.FIELD_TYPE_CHANGE, u.proto_file_name, tnU.source_code_line,
            s!"Type of an existing field `{o.name}` is changed from `{tnO.value}` to `{tnU.value}`.",
            .MAJOR⟩] := by
  simp only [FieldComparator.typeFindings, FieldComparator.transformedTypeName,
    hpt, htnO, htnU, hv, bne_self_eq_false, Bool.false_eq_true, if_false]
  rw [if_pos (by simp [bne_iff_ne, hdiff])]
  simp [pyTruthyStr]

lemma oneofFindings_not_category (o u : FieldView) (c : FindingCategory)
    (h1 : c ≠ .FIELD_ONEOF_REMOVAL) (h2 : c ≠ .FIELD_ONEOF_ADDITION)
    (h3 : c ≠ .FIELD_PROTO3_OPTIONAL_CHANGE) :
    findingsOfCategory c (FieldComparator.oneofFindings o u) = [] := by
  refine findingsOfCategory_eq_nil (oneofFindings_categories o u) fun f hf => ?_
  simp only [Bool.or_eq_true, beq_iff_eq] at hf
  rcases hf with (h | h) | h
  · exact fun hc => h1 (hc.symm.trans h)
  · exact fun hc => h2 (hc.symm.trans h)
  · exact fun hc => h3 (hc.symm.trans h)

lemma compareResourceReference_not_category (o u : FieldView) (c : FindingCategory)
    (h1 : c ≠ .RESOURCE_REFERENCE_ADDITION) (h2 : c ≠ .RESOURCE_REFERENCE_REMOVAL)
    (h3 : c ≠ .RESOURCE_REFERENCE_CHANGE) :
    findingsOfCategory c (FieldComparator.compareResourceReference o u).1 = [] := by
  refine findingsOfCategory_eq_nil (compareResourceReference_categories o u) fun f hf => ?_
  simp only [Bool.or_eq_true, beq_iff_eq] at hf
  rcases hf with (h | h) | h
  · exact fun hc => h1 (hc.symm.trans h)
  · exact fun hc => h2 (hc.symm.trans h)
  · exact fun hc => h3 (hc.symm.trans h)

/-- Claim C1 (amended): for present fields with equal names, equal proto_type
and differing non-empty type_name values, with both api_versions present and
the original one non-empty, the comparator substitutes every occurrence of the
original field's apiVersion substring in the original type name by the updated
field's apiVersion — a plain substring replacement, not a segment-exact
substitution — and emits no FIELD_TYPE_CHANGE finding exactly when the
substituted name equals the updated type name, otherwise exactly one
FIELD_TYPE_CHANGE finding with severity MAJOR; in particular `.pkg.v1.Enum` →
`.pkg.v1beta1.Enum` (apiVersion v1 → v1beta1) yields no type-change finding
and `.pkg.v1.Enum` → `.pkg.v2.EnumUpdate` yields exactly one. -/
theorem field_type_change_version_tolerance
    (o u : FieldView) (tnO tnU : WithLoc String) (vo vu : String)
    (hname : o.name = u.name)
    (hpt : o.proto_type.value = u.proto_type.value)
    (htnO : o.type_name = some tnO) (htnU : u.type_name = some tnU)
    (hdiff : tnO.value ≠ tnU.value)
    (hO : tnO.value ≠ "") (hU : tnU.value ≠ "")
    (hvo : o.api_version = some vo) (hvoNe : vo ≠ "")
    (hvu : u.api_version = some vu) :
    findingsOfCategory .FIELD_TYPE_CHANGE (FieldComparator.compare (some o) (some u)).1 =
      if pyReplace tnO.value vo vu = tnU.value then []
      else
        [⟨.FIELD_TYPE_CHANGE, u.proto_file_name, tnU.source_code_line,
          s!"Type of an existing field `{o.name}` is changed from `{tnO.value}` to `{tnU.value}`.",
          .MAJOR⟩] := by
  have ht := typeFindings_eq_version o u tnO tnU vo vu hpt htnO htnU hdiff hU hvo hvoNe hvu
  have h67 := oneofFindings_not_category o u .FIELD_TYPE_CHANGE
    (by decide) (by decide) (by decide)
  have h8 := compareResourceReference_not_category o u .FIELD_TYPE_CHANGE
    (by decide) (by decide) (by decide)
  simp only [FieldComparator.compare, FieldComparator.compareFields]
  rw [if_neg (by simp [bne_iff_ne, hname])]
  rw [ht]
  simp only [findingsOfCategory_append, h67, h8, List.append_nil]
  by_cases hr : pyReplace tnO.value vo vu = tnU.value
  · simp only [if_pos hr]
    split <;> split <;> simp [findingsOfCategory]
  · simp only [if_neg hr]
    split <;> split <;> simp [findingsOfCategory]

/-- Witness for C1's theorem at the spec's two examples: `.pkg.v1.Enum` →
`.pkg.v1beta1.Enum` under apiVersion v1 → v1beta1 yields no type-change
finding, and `.pkg.v1.Enum` → `.pkg.v2.EnumUpdate` under v1 → v2 yields
exactly one FIELD_TYPE_CHANGE of severity MAJOR. -/
theorem field_type_change_version_tolerance_witness :
    findingsOfCategory .FIELD_TYPE_CHANGE
      (FieldComparator.compare (some (typedFieldView ".pkg.v1.Enum" (some "v1")))
        (some (typedFieldView ".pkg.v1beta1.Enum" (some "v1beta1")))).1 = [] ∧
    findingsOfCategory .FIELD_TYPE_CHANGE
      (FieldComparator.compare (some (typedFieldView ".pkg.v1.Enum" (some "v1")))
        (some (typedFieldView ".pkg.v2.EnumUpdate" (some "v2")))).1 =
      [⟨.FIELD_TYPE_CHANGE, "foo.proto", 14,
        "Type of an existing field `my_field` is changed from `.pkg.v1.Enum` to `.pkg.v2.EnumUpdate`.",
        .MAJOR⟩] := by
  constructor
  · exact (field_type_change_version_tolerance
      (typedFieldView ".pkg.v1.Enum" (some "v1"))
      (typedFieldView ".pkg.v1beta1.Enum" (some "v1beta1"))
      ⟨".pkg.v1.Enum", 14⟩ ⟨".pkg.v1beta1.Enum", 14⟩ "v1" "v1beta1"
      rfl rfl rfl rfl (by decide) (by decide) (by decide) rfl (by decide) rfl).trans (by decide)
  · exact (field_type_change_version_tolerance
      (typedFieldView ".pkg.v1.Enum" (some "v1"))
      (typedFieldView ".pkg.v2.EnumUpdate" (some "v2"))
      ⟨".pkg.v1.Enum", 14⟩ ⟨".pkg.v2.EnumUpdate", 14⟩ "v1" "v2"
      rfl rfl rfl rfl (by decide) (by decide) (by decide) rfl (by decide) rfl).trans (by decide)

/-- Claim C1, counterexample: with apiVersion v1 → v2 and type names
`.pkg.v1beta1.Enum` → `.pkg.v2beta1.Enum`, the segment-exact substitution the
claim describes leaves the original name unchanged (no dot-delimited segment
equals `v1`), so the substituted name differs from the updated one and the
claim requires exactly one FIELD_TYPE_CHANGE finding — yet the comparator,
which replaces the substring `v1` inside the segment `v1beta1`, emits none. -/
theorem field_type_change_not_segment_exact_cx :
    segmentSubstitute ".pkg.v1beta1.Enum" "v1" "v2" = ".pkg.v1beta1.Enum" ∧
    (".pkg.v1beta1.Enum" : String) ≠ ".pkg.v2beta1.Enum" ∧
    findingsOfCategory .FIELD_TYPE_CHANGE
      (FieldComparator.compare (some (typedFieldView ".pkg.v1beta1.Enum" (some "v1")))
        (some (typedFieldView ".pkg.v2beta1.Enum" (some "v2")))).1 = [] := by
  exact ⟨by decide, by decide, by decide⟩

/-- Claim C10: for present fields with equal names, equal proto_type and
differing non-empty type_name values, when the original field's api_version is
absent the comparator always emits exactly one FIELD_TYPE_CHANGE finding with
severity MAJOR — version tolerance is entirely disabled. -/
theorem field_type_change_without_api_version
    (o u : FieldView) (tnO tnU : WithLoc String)
    (hname : o.name = u.name)
    (hpt : o.proto_type.value = u.proto_type.value)
    (htnO : o.type_name = some tnO) (htnU : u.type_name = some tnU)
    (hdiff : tnO.value ≠ tnU.value)
    (hO : tnO.value ≠ "") (hU : tnU.value ≠ "")
    (hv : o.api_version = none) :
    findingsOfCategory .FIELD_TYPE_CHANGE (FieldComparator.compare (some o) (some u)).1 =
      [⟨.FIELD_TYPE_CHANGE, u.proto_file_name, tnU.source_code_line,
        s!"Type of an existing field `{o.name}` is changed from `{tnO.value}` to `{tnU.value}`.",
        .MAJOR⟩] := by
  have ht := typeFindings_eq_no_version o u tnO tnU hpt htnO htnU hdiff hv
  have h67 := oneofFindings_not_category o u .FIELD_TYPE_CHANGE
    (by decide) (by decide) (by decide)
  have h8 := compareResourceReference_not_category o u .FIELD_TYPE_CHANGE
    (by decide) (by decide) (by decide)
  simp only [FieldComparator.compare, FieldComparator.compareFields]
  rw [if_neg (by simp [bne_iff_ne, hname])]
  rw [ht]
  simp only [findingsOfCategory_append, h67, h8, List.append_nil]
  split <;> split <;> simp [findingsOfCategory]

/-- Witness for C10's theorem: `.pkg.v1.Enum` → `.pkg.v1beta1.Enum` with no
api_version on the original side yields the FIELD_TYPE_CHANGE finding even
though a version substitution could have made the names equal. -/
theorem field_type_change_without_api_version_witness :
    findingsOfCategory .FIELD_TYPE_CHANGE
      (FieldComparator.compare (some (typedFieldView ".pkg.v1.Enum" none))
        (some (typedFieldView ".pkg.v1beta1.Enum" (some "v1beta1")))).1 =
      [⟨.FIELD_TYPE_CHANGE, "foo.proto", 14,
        "Type of an existing field `my_field` is changed from `.pkg.v1.Enum` to `.pkg.v1beta1.Enum`.",
        .MAJOR⟩] := by
  exact (field_type_change_without_api_version
    (typedFieldView ".pkg.v1.Enum" none)
    (typedFieldView ".pkg.v1beta1.Enum" (some "v1beta1"))
    ⟨".pkg.v1.Enum", 14⟩ ⟨".pkg.v1beta1.Enum", 14⟩
    rfl rfl rfl rfl (by decide) (by decide) (by decide) rfl).trans (by decide)

lemma typeFindings_no_type_name (o u : FieldView) (htn : o.type_name = none) :
    FieldComparator.typeFindings o u =
      .ok (if o.proto_type.value != u.proto_type.value then
             [⟨.FIELD_TYPE_CHANGE, u.proto_file_name, u.proto_type.source_code_line,
               s!"Type of an existing field `{o.name}` is changed from `{o.proto_type.value}` to `{u.proto_type.value}`.",
               .MAJOR⟩]
           else []) := by
  simp only [FieldComparator.typeFindings, htn]
  split <;> rfl

lemma compareRR_flipped (o u : FieldView) (ro ru : WithLoc ResourceRef)
    (rbo rbu : ResourceDatabase)
    (hro : o.resource_reference = some ro) (hru : u.resource_reference = some ru)
    (hflip : o.childType ≠ u.childType)
    (hdbo : o.resource_database = some rbo) (hdbu : u.resource_database = some rbu) :
    FieldComparator.compareResourceReference o u =
      (if o.childType then
         (if !((rbo.get_parent_resources_by_child_type ro.value.child_type).any
             fun p => p.value.type == ru.value.type) then
           [⟨.RESOURCE_REFERENCE_CHANGE, u.proto_file_name, ru.source_code_line,
             s!"The child_type `{ro.value.child_type}` and type `{ru.value.type}` of resource reference option in field `{o.name}` cannot be resolved to the identical resource.",
             .MAJOR⟩]
          else [])
       else
         (if !((rbu.get_parent_resources_by_child_type ru.value.child_type).any
             fun p => p.value.type == ro.value.type) then
           [⟨.RESOURCE_REFERENCE_CHANGE, u.proto_file_name, ru.source_code_line,
             s!"The child_type `{ru.value.child_type}` and type `{ro.value.type}` of resource reference option in field `{o.name}` cannot be resolved to the identical resource.",
             .MAJOR⟩]
          else []),
       none) := by
  simp only [FieldComparator.compareResourceReference, hro, hru]
  rw [if_neg (by simp [hflip])]
  cases hch : o.childType with
  | true =>
    have hchu : u.childType = false := by
      cases hu : u.childType
      · rfl
      · exact absurd (hch.trans hu.symm) hflip
    simp only [FieldComparator.isParentType, hchu, hdbo, if_true, Bool.true_eq_false,
      if_false, Bool.false_eq_true]
    split
    · rename_i e heq
      split at heq <;> simp at heq
    · rename_i fs1 heq
      split at heq <;> cases heq <;> simp [*]
  | false =>
    have hchu : u.childType = true := by
      cases hu : u.childType
      · exact absurd (hch.trans hu.symm) hflip
      · rfl
    simp only [FieldComparator.isParentType, hchu, hdbu, if_true, Bool.true_eq_false,
      if_false, Bool.false_eq_true]
    split
    · rename_i e heq
      split at heq <;> simp at heq
    · rename_i fs1 heq
      split at heq <;> cases heq <;> simp [*]

/-- Claim C2 (amended): when both fields carry a resource reference and the
discriminant flips between type and childType, the resolver queries the parent
resources of the child-type reference in the resource database of the side
that OWNS the child-type reference (the child side); if no parent resource
whose type equals the other side's type is found there, it emits one
RESOURCE_REFERENCE_CHANGE finding with severity MAJOR whose message states the
child/parent pair cannot be resolved to the identical resource, and if a
matching parent is found it emits no finding. -/
theorem resource_reference_flip_resolution
    (o u : FieldView) (ro ru : WithLoc ResourceRef) (rbo rbu : ResourceDatabase)
    (hname : o.name = u.name) (htn : o.type_name = none)
    (hro : o.resource_reference = some ro) (hru : u.resource_reference = some ru)
    (hflip : o.childType ≠ u.childType)
    (hdbo : o.resource_database = some rbo) (hdbu : u.resource_database = some rbu) :
    findingsOfCategory .RESOURCE_REFERENCE_CHANGE (FieldComparator.compare (some o) (some u)).1 =
      if o.childType then
        (if !((rbo.get_parent_resources_by_child_type ro.value.child_type).any
            fun p => p.value.type == ru.value.type) then
          [⟨.RESOURCE_REFERENCE_CHANGE, u.proto_file_name, ru.source_code_line,
            s!"The child_type `{ro.value.child_type}` and type `{ru.value.type}` of resource reference option in field `{o.name}` cannot be resolved to the identical resource.",
            .MAJOR⟩]
         else [])
      else
        (if !((rbu.get_parent_resources_by_child_type ru.value.child_type).any
            fun p => p.value.type == ro.value.type) then
          [⟨.RESOURCE_REFERENCE_CHANGE, u.proto_file_name, ru.source_code_line,
            s!"The child_type `{ru.value.child_type}` and type `{ro.value.type}` of resource reference option in field `{o.name}` cannot be resolved to the identical resource.",
            .MAJOR⟩]
         else []) := by
  have h8 := compareRR_flipped o u ro ru rbo rbu hro hru hflip hdbo hdbu
  have ht := typeFindings_no_type_name o u htn
  have h67 := oneofFindings_not_category o u .RESOURCE_REFERENCE_CHANGE
    (by decide) (by decide) (by decide)
  simp only [FieldComparator.compare, FieldComparator.compareFields]
  rw [if_neg (by simp [bne_iff_ne, hname])]
  rw [ht]
  simp only [findingsOfCategory_append, h67, List.append_nil, h8]
  by_cases hch : o.childType = true
  · simp only [if_pos hch]
    split <;> split <;> split <;> simp [findingsOfCategory]
  · simp only [if_neg hch]
    split <;> split <;> split <;> simp [findingsOfCategory]

/-- Witness for C2's theorem: a childType → type flip whose child side's
database registers a matching parent resource yields no finding. -/
theorem resource_reference_flip_resolution_witness :
    findingsOfCategory .RESOURCE_REFERENCE_CHANGE
      (FieldComparator.compare
        (some (refFieldView "" "example.com/Location" (some projectParentDatabase)))
        (some (refFieldView "example.com/Project" "" (some emptyResourceDatabase)))).1 = [] := by
  exact (resource_reference_flip_resolution
    (refFieldView "" "example.com/Location" (some projectParentDatabase))
    (refFieldView "example.com/Project" "" (some emptyResourceDatabase))
    ⟨⟨"", "example.com/Location"⟩, 15⟩ ⟨⟨"example.com/Project", ""⟩, 15⟩
    projectParentDatabase emptyResourceDatabase
    rfl rfl rfl rfl (by decide) rfl rfl).trans (by decide)

set_option maxRecDepth 4096 in
/-- Claim C2, counterexample: the original side is the child-type reference
and only the updated side's database (the side that is NOT the child side)
registers a matching parent resource. The claim says the lookup runs against
that database, so no finding should be emitted — but the comparator queries
the child side's own (empty) database and emits the MAJOR finding. -/
theorem resource_reference_flip_queries_child_side_cx :
    ((projectParentDatabase.get_parent_resources_by_child_type "example.com/Location").any
      fun p => p.value.type == "example.com/Project") = true ∧
    findingsOfCategory .RESOURCE_REFERENCE_CHANGE
      (FieldComparator.compare
        (some (refFieldView "" "example.com/Location" (some emptyResourceDatabase)))
        (some (refFieldView "example.com/Project" "" (some projectParentDatabase)))).1 =
      [⟨.RESOURCE_REFERENCE_CHANGE, "foo.proto", 15,
        "The child_type `example.com/Location` and type `example.com/Project` of resource reference option in field `my_field` cannot be resolved to the identical resource.",
        .MAJOR⟩] := by
  exact ⟨by decide, by decide⟩

lemma compare_snd (o u : FieldView) (hname : o.name = u.name) (htn : o.type_name = none) :
    (FieldComparator.compare (some o) (some u)).2 =
      (FieldComparator.compareResourceReference o u).2 := by
  simp only [FieldComparator.compare, FieldComparator.compareFields]
  rw [if_neg (by simp [bne_iff_ne, hname])]
  rw [typeFindings_no_type_name o u htn]

/-- Claim C4 (amended): the malformed-resource-reference fault (neither type
nor childType set) is raised only in the removal branch, and only after the
updated side is found to carry a message-level resource; the addition branch,
the same-discriminant branch, the flipped-discriminant branch and the removal
branch without a message resource all process a malformed reference through
their ordinary lookups and complete without raising. -/
theorem malformed_resource_reference_fault_scope
    (o u : FieldView) (hname : o.name = u.name) (htn : o.type_name = none) :
    (∀ ro mr, o.resource_reference = some ro → ro.value.type = "" → ro.value.child_type = "" →
      u.resource_reference = none → u.message_resource = some mr →
      (FieldComparator.compare (some o) (some u)).2 =
        some (.typeError "In a resource_reference annotation, either `type` or `child_type` field should be defined")) ∧
    (∀ ru, o.resource_reference = none → u.resource_reference = some ru →
      ru.value.type = "" → ru.value.child_type = "" →
      (FieldComparator.compare (some o) (some u)).2 = none) ∧
    (∀ ro ru, o.resource_reference = some ro → ro.value.type = "" → ro.value.child_type = "" →
      u.resource_reference = some ru → ru.value.type = "" → ru.value.child_type = "" →
      (FieldComparator.compare (some o) (some u)).2 = none) ∧
    (∀ ro ru rbu, o.resource_reference = some ro → ro.value.type = "" → ro.value.child_type = "" →
      u.resource_reference = some ru → ru.value.child_type ≠ "" → u.resource_database = some rbu →
      (FieldComparator.compare (some o) (some u)).2 = none) ∧
    (∀ ro, o.resource_reference = some ro → ro.value.type = "" → ro.value.child_type = "" →
      u.resource_reference = none → u.message_resource = none →
      (FieldComparator.compare (some o) (some u)).2 = none) := by
  refine ⟨?_, ?_, ?_, ?_, ?_⟩
  · intro ro mr hro hty hct hru hmr
    rw [compare_snd o u hname htn]
    simp only [FieldComparator.compareResourceReference, hro, hru,
      FieldComparator.resourceRefInLocal, hmr, hty, hct, pyOr]
    rw [if_pos (by decide)]
  · intro ru ho hru hty hct
    rw [compare_snd o u hname htn]
    simp only [FieldComparator.compareResourceReference, ho, hru]
    have hb : ∃ b, FieldComparator.resourceInDatabase u ru = .ok b := by
      simp only [FieldComparator.resourceInDatabase]
      cases hdb : u.resource_database with
      | none => exact ⟨false, rfl⟩
      | some rb =>
        have hchu : u.childType = false := by
          simp [FieldView.childType, hru, hct, String.isEmpty_iff]
        simp only [hchu, Bool.false_eq_true, if_false]
        exact ⟨_, rfl⟩
    obtain ⟨b, hb⟩ := hb
    simp only [hb]
    split <;> rfl
  · intro ro ru hro htyO hctO hru htyU hctU
    rw [compare_snd o u hname htn]
    have hcho : o.childType = false := by
      simp [FieldView.childType, hro, hctO, String.isEmpty_iff]
    have hchu : u.childType = false := by
      simp [FieldView.childType, hru, hctU, String.isEmpty_iff]
    simp [FieldComparator.compareResourceReference, hro, hru, hcho, hchu,
      pyOr, htyO, hctO, htyU, hctU, String.isEmpty_iff]
  · intro ro ru rbu hro htyO hctO hru hctU hdbu
    rw [compare_snd o u hname htn]
    have hcho : o.childType = false := by
      simp [FieldView.childType, hro, hctO, String.isEmpty_iff]
    have hne : ru.value.child_type.isEmpty = false := by
      cases hh : ru.value.child_type.isEmpty
      · rfl
      · exact absurd (by simpa [String.isEmpty_iff] using hh) hctU
    have hchu : u.childType = true := by
      simp [FieldView.childType, hru, hne]
    simp only [FieldComparator.compareResourceReference, hro, hru, hcho, hchu]
    rw [if_neg (by decide)]
    simp only [Bool.false_eq_true, if_false, if_true, FieldComparator.isParentType, hdbu]
    split
    · rename_i e heq
      split at heq <;> simp at heq
    · rfl
  · intro ro hro htyO hctO hru hmr
    rw [compare_snd o u hname htn]
    simp [FieldComparator.compareResourceReference, hro, hru,
      FieldComparator.resourceRefInLocal, hmr]

/-- Witness for C4's theorem: removing a malformed resource reference while
the updated side carries a message-level resource raises the TypeError; adding
a malformed reference completes without a fault. -/
theorem malformed_resource_reference_fault_scope_witness :
    (FieldComparator.compare (some (refFieldView "" "" none))
      (some (mrFieldView none (some ⟨⟨"example.com/Project"⟩, 9⟩) none))).2 =
      some (.typeError "In a resource_reference annotation, either `type` or `child_type` field should be defined") ∧
    (FieldComparator.compare (some plainFieldView) (some (refFieldView "" "" none))).2 = none := by
  constructor
  · exact (malformed_resource_reference_fault_scope
      (refFieldView "" "" none)
      (mrFieldView none (some ⟨⟨"example.com/Project"⟩, 9⟩) none)
      rfl rfl).1 ⟨⟨"", ""⟩, 15⟩ ⟨⟨"example.com/Project"⟩, 9⟩ rfl rfl rfl rfl rfl
  · exact (malformed_resource_reference_fault_scope
      plainFieldView (refFieldView "" "" none)
      rfl rfl).2.1 ⟨⟨"", ""⟩, 15⟩ rfl rfl rfl rfl

/-- Claim C4, counterexample: a malformed resource reference (type and
childType both unset) added on the updated side does not raise — the addition
branch completes and emits an ordinary RESOURCE_REFERENCE_ADDITION finding
(MAJOR, "not defined anywhere"), contradicting the claim that every resolver
branch receiving such a reference raises the malformed-reference fault. -/
theorem malformed_resource_reference_no_fault_on_addition_cx :
    (FieldComparator.compare (some plainFieldView) (some (refFieldView "" "" none))).2 = none ∧
    (FieldComparator.compare (some plainFieldView) (some (refFieldView "" "" none))).1 =
      [⟨.RESOURCE_REFERENCE_ADDITION, "foo.proto", 15,
        "A resource reference option is added to the field `my_field`, but it is not defined anywhere",
        .MAJOR⟩] := by
  exact ⟨by decide, by decide⟩

/-- Claim C5 (amended): only the reference-addition check treats an absent
resource database as a negative lookup — it completes without a fault and
classifies the addition as not defined anywhere (MAJOR). The removal check
(original reference uses childType and the updated side carries a message
resource) and the flipped-discriminant parent check dereference the queried
database without a presence check and fault when it is absent. -/
theorem resource_database_absent_behavior
    (o u : FieldView) (hname : o.name = u.name) (htn : o.type_name = none) :
    (∀ ru, o.resource_reference = none → u.resource_reference = some ru →
      u.resource_database = none →
      (FieldComparator.compare (some o) (some u)).2 = none ∧
      findingsOfCategory .RESOURCE_REFERENCE_ADDITION
        (FieldComparator.compare (some o) (some u)).1 =
        [⟨.RESOURCE_REFERENCE_ADDITION, u.proto_file_name, ru.source_code_line,
          s!"A resource reference option is added to the field `{o.name}`, but it is not defined anywhere",
          .MAJOR⟩]) ∧
    (∀ ro mr, o.resource_reference = some ro → ro.value.type = "" → ro.value.child_type ≠ "" →
      u.resource_reference = none → u.message_resource = some mr → u.resource_database = none →
      (FieldComparator.compare (some o) (some u)).2 =
        some (.attributeError "NoneType object has no attribute get_parent_resources_by_child_type")) ∧
    (∀ ro ru, o.resource_reference = some ro → ro.value.child_type ≠ "" →
      u.resource_reference = some ru → ru.value.child_type = "" → o.resource_database = none →
      (FieldComparator.compare (some o) (some u)).2 =
        some (.attributeError "NoneType object has no attribute get_parent_resources_by_child_type")) := by
  refine ⟨?_, ?_, ?_⟩
  · intro ru ho hru hdb
    have hrr : FieldComparator.compareResourceReference o u =
        ([⟨.RESOURCE_REFERENCE_ADDITION, u.proto_file_name, ru.source_code_line,
           s!"A resource reference option is added to the field `{o.name}`, but it is not defined anywhere",
           .MAJOR⟩], none) := by
      simp only [FieldComparator.compareResourceReference, ho, hru,
        FieldComparator.resourceInDatabase, hdb]
      rfl
    constructor
    · rw [compare_snd o u hname htn, hrr]
    · have ht := typeFindings_no_type_name o u htn
      have h67 := oneofFindings_not_category o u .RESOURCE_REFERENCE_ADDITION
        (by decide) (by decide) (by decide)
      simp only [FieldComparator.compare, FieldComparator.compareFields]
      rw [if_neg (by simp [bne_iff_ne, hname])]
      rw [ht]
      simp only [findingsOfCategory_append, h67, List.append_nil, hrr]
      split <;> split <;> simp [findingsOfCategory]
  · intro ro mr hro hty hct hru hmr hdb
    rw [compare_snd o u hname htn]
    have hne : ro.value.child_type.isEmpty = false := by
      cases hh : ro.value.child_type.isEmpty
      · rfl
      · exact absurd (by simpa [String.isEmpty_iff] using hh) hct
    have hcho : o.childType = true := by
      simp [FieldView.childType, hro, hne]
    have h0 : ("" : String).isEmpty = true := rfl
    simp [FieldComparator.compareResourceReference, hro, hru,
      FieldComparator.resourceRefInLocal, hmr, hty, pyOr, h0, hne, hcho, hdb]
  · intro ro ru hro hct hru hctU hdbo
    rw [compare_snd o u hname htn]
    have hne : ro.value.child_type.isEmpty = false := by
      cases hh : ro.value.child_type.isEmpty
      · rfl
      · exact absurd (by simpa [String.isEmpty_iff] using hh) hct
    have hcho : o.childType = true := by
      simp [FieldView.childType, hro, hne]
    have hchu : u.childType = false := by
      simp [FieldView.childType, hru, hctU, String.isEmpty_iff]
    have hnea : (o.childType == u.childType) = false := by
      rw [hcho, hchu]
      rfl
    simp only [FieldComparator.compareResourceReference, hro, hru, hnea,
      Bool.false_eq_true, if_false, hcho, eq_self_iff_true, if_true,
      FieldComparator.isParentType, hdbo]
    simp [hchu]

/-- Witness for C5's theorem: an added reference with no database on the
updated side yields the MAJOR "not defined anywhere" finding and no fault. -/
theorem resource_database_absent_behavior_witness :
    (FieldComparator.compare (some plainFieldView)
      (some (refFieldView "example.com/Project" "" none))).2 = none ∧
    findingsOfCategory .RESOURCE_REFERENCE_ADDITION
      (FieldComparator.compare (some plainFieldView)
        (some (refFieldView "example.com/Project" "" none))).1 =
      [⟨.RESOURCE_REFERENCE_ADDITION, "foo.proto", 15,
        "A resource reference option is added to the field `my_field`, but it is not defined anywhere",
        .MAJOR⟩] := by
  exact (resource_database_absent_behavior plainFieldView
    (refFieldView "example.com/Project" "" none) rfl rfl).1
    ⟨⟨"example.com/Project", ""⟩, 15⟩ rfl rfl rfl

/-- Claim C5, counterexample: in the removal check — a child-type reference
removed while the updated side carries a message-level resource — an absent
updated-side database is dereferenced and the comparison faults with an
AttributeError instead of completing with a negative result, contradicting the
claim that every database-querying branch treats an absent database as a
negative lookup and never raises. -/
theorem resource_database_absent_faults_cx :
    (FieldComparator.compare
      (some (refFieldView "" "example.com/Location" none))
      (some (mrFieldView none (some ⟨⟨"example.com/Project"⟩, 9⟩) none))).2 =
      some (.attributeError "NoneType object has no attribute get_parent_resources_by_child_type") := by
  decide

/-- Claim C7 (code bug): the resource database declares exactly two
operations, get_resource_by_type and get_parent_resources_by_child_type, but
the addition check for a child-type reference invokes
`get_parent_resource_by_child_type` (singular) — an operation the contract
does not define and the only call site not using the plural name — so that
lookup faults instead of performing one of the two declared queries. -/
theorem resource_database_undeclared_operation_bug :
    (FieldComparator.compare (some plainFieldView)
      (some (refFieldView "" "example.com/Location" (some emptyResourceDatabase)))).2 =
      some (.attributeError "ResourceDatabase object has no attribute get_parent_resource_by_child_type") := by
  decide

/-- Claim C6, counterexample: with both fields present — not a pure field
removal — and distinct file names, the RESOURCE_REFERENCE_REMOVAL finding
carries the original side's file name and line, contradicting the claim that
every finding except pure field removals uses the updated side's location. -/
theorem finding_location_not_updated_side_cx :
    (FieldComparator.compare (some removedRefOriginal) (some removedRefUpdated)).1 =
      [⟨.RESOURCE_REFERENCE_REMOVAL, "original.proto", 4,
        "A resource reference option of the field `my_field` is removed.", .MAJOR⟩] ∧
    removedRefUpdated.proto_file_name = "updated.proto" ∧
    ("original.proto" : String) ≠ "updated.proto" := by
  exact ⟨by decide, rfl, by decide⟩
